import Mathlib

/-!
Verification of the litellm batch lifecycle adapter (Anthropic batches and
Vertex AI result location), shallowly embedded from:
  litellm/llms/anthropic/batches/transformation.py
  litellm/llms/anthropic/batches/errors.py
  litellm/llms/anthropic/batches/handler.py
  litellm/llms/vertex_ai/files/handler.py
Python dict/JSON values are modelled by an inductive `JVal`; externally
supplied library behaviour (the `datetime` ISO parser, the AnthropicConfig
per-line parameter transformation, `json.loads`/`str.splitlines`) is made an
explicit parameter or the pre-classified input of the embedded function.
-/

/-- Model of a JSON value as decoded by `json.loads` (a Python object). -/
inductive JVal where
  | null
  | bool (b : Bool)
  | num (n : Int)
  | str (s : String)
  | arr (elems : List JVal)
  | obj (fields : List (String × JVal))

/-- Python truthiness of a decoded JSON value (`None`, `False`, `0`, `""`,
`[]`, and the empty dict are falsy). -/
def JVal.truthy : JVal → Bool
  | .null => false
  | .bool b => b
  | .num n => n != 0
  | .str s => s != ""
  | .arr l => !l.isEmpty
  | .obj l => !l.isEmpty

/-- Model of `d.get(key)` on a decoded JSON object: `none` models the Python `None`
returned when the key is missing. A present JSON `null` is `some JVal.null`.
Keys of a decoded object are unique, so first-match lookup is exact. -/
def JVal.get : JVal → String → Option JVal
  | .obj fields, key => fields.lookup key
  | _, _ => none

/-- Python `x or default` applied to the result of `d.get(key)`: a missing
key or a falsy value both yield the default. -/
def pyOr (v : Option JVal) (dflt : JVal) : JVal :=
  match v with
  | none => dflt
  | some x => if x.truthy then x else dflt

/-- One input line of `build_requests_from_jsonl`, classified after
`str.strip` and `json.loads` (both external library calls): the line is
whitespace-only, fails to parse as JSON, or parses to a value. -/
inductive PLine where
  | blank
  | invalid
  | parsed (v : JVal)

/-- Whether a classified line is whitespace-only (skipped by the encoder
loop at transformation.py lines 40-42). -/
def PLine.isBlank : PLine → Bool
  | .blank => true
  | _ => false

/-- Resolution of the request body for one parsed line
(transformation.py lines 49-54): if the object has a `body` key holding an
object, that object is the body; a `body` key holding JSON `null` decodes to
Python `None`, so the top-level object is the body, as when `body` is absent;
a `body` key holding any other value makes the line skipped (`none`); a
non-object line is skipped. -/
def lineBody : JVal → Option (List (String × JVal))
  | .obj fields =>
      match fields.lookup "body" with
      | some (.obj bodyFields) => some bodyFields
      | some .null => some fields
      | some _ => none
      | none => some fields
  | _ => none

/-- One encoded batch request item (`{"custom_id": ..., "params": ...}`). -/
structure BatchRequestItem where
  custom_id : JVal
  params : JVal

/-- Loop body of `build_requests_from_jsonl` (transformation.py lines 39-87),
carrying the 0-based `enumerate` index over all lines. `transform` is the
AnthropicConfig pipeline of lines 56-82 (extract model/messages, map OpenAI
params, transform to Anthropic params), a pure function of the body that
lives outside src and is therefore kept abstract. -/
def buildRequestsAux (transform : List (String × JVal) → JVal) :
    Nat → List PLine → List BatchRequestItem
  | _, [] => []
  | idx, .blank :: rest => buildRequestsAux transform (idx + 1) rest
  | idx, .invalid :: rest => buildRequestsAux transform (idx + 1) rest
  | idx, .parsed v :: rest =>
      match lineBody v with
      | none => buildRequestsAux transform (idx + 1) rest
      | some bodyFields =>
          { custom_id := pyOr (v.get "custom_id") (.str ("req-" ++ toString (idx + 1))),
            params := transform bodyFields } :: buildRequestsAux transform (idx + 1) rest

/-- Model of `build_requests_from_jsonl(jsonl_content)` (transformation.py lines
29-88), over the classified lines of the input. -/
def build_requests_from_jsonl (transform : List (String × JVal) → JVal)
    (lines : List PLine) : List BatchRequestItem :=
  buildRequestsAux transform 0 lines

/-- Outcome of `AnthropicBatchesAPI.create_batch` up to the point where the
HTTP POST would be issued (handler.py lines 84-96): either the ValueError of
line 92 is raised before any request (the EncodingFailed condition of the
error taxonomy), or a POST payload `{"requests": ...}` is built. -/
inductive CreateBatchStep where
  | encodingFailed
  | request (payload : List BatchRequestItem)

/-- Model of the `create_batch` pre-HTTP phase (handler.py lines 84-96). `inputNonempty`
is the Python truthiness of the `input_file_id` string; `lines` is its
classified `splitlines` output (an empty string yields no lines). -/
def create_batch_step (transform : List (String × JVal) → JVal)
    (inputNonempty : Bool) (lines : List PLine) : CreateBatchStep :=
  let reqs := build_requests_from_jsonl transform lines
  if reqs.length = 0 ∧ inputNonempty then .encodingFailed else .request reqs

/-- Python `s.endswith(suffix)` on strings, via character lists. -/
def endsWithStr (s suffix : String) : Bool :=
  suffix.data.isSuffixOf s.data

/-- Outcome of the Vertex AI result locator: either no candidate object
exists under the prefix (the httpx 503 raised at handler.py line 169, the
ResultsNotFound condition of the error taxonomy) or a named object is
downloaded. -/
inductive LocatorResult where
  | resultsNotFound
  | fetch (objectName : String)
deriving DecidableEq

/-- Object selection of `VertexAIFilesHandler.get_results_content`
(vertex_ai/files/handler.py lines 161-192). `objectPath` is the path
component of the gs:// URI; `listing` is the `name` of each listed item in
listing order (a missing name field decodes to the empty string, as in
`it.get("name", "")`). -/
def get_results_content (objectPath : String) (listing : List String) :
    LocatorResult :=
  if endsWithStr objectPath ".jsonl" then .fetch objectPath
  else if listing.isEmpty then .resultsNotFound
  else
    match listing.find? (fun n => endsWithStr n "predictions.jsonl") with
    | some n => .fetch n
    | none =>
        match listing.find? (fun n => n != "" && !endsWithStr n "input.jsonl") with
        | some n => .fetch n
        | none => .fetch (listing.headD "")

/-- The canonical error taxonomy of the spec, one kind per litellm exception
class raised by `raise_mapped_error`. -/
inductive CanonicalError where
  | invalidRequest
  | authenticationFailed
  | permissionDenied
  | notFound
  | timeout
  | unprocessableRequest
  | rateLimited
  | serviceUnavailable
  | providerError
  | connectionFailed
deriving DecidableEq

/-- The exception kind chosen by `raise_mapped_error` (errors.py lines
13-44): the if-chain on the HTTP status code. The response body enters only
the message text, never the choice of exception class, and is therefore an
ignored argument here. -/
def raise_mapped_error (status : Nat) (body : JVal) : CanonicalError :=
  if status = 400 then .invalidRequest
  else if status = 401 then .authenticationFailed
  else if status = 403 then .permissionDenied
  else if status = 404 then .notFound
  else if status = 408 then .timeout
  else if status = 409 then .invalidRequest
  else if status = 422 then .unprocessableRequest
  else if status = 429 then .rateLimited
  else if status = 503 then .serviceUnavailable
  else if status ≥ 500 then .providerError
  else .connectionFailed

/-- A raw Anthropic message_batch payload, as read by `to_litellm_batch`
(transformation.py lines 91-167) through `batch_obj.get(...)`. String fields
are `none` when absent or JSON null (both decode to Python `None`); the five
counters are the integers produced by `int(anth_counts.get(k, 0) or 0)`, so
an absent counter is 0 and a present JSON integer keeps its sign. -/
structure RawBatch where
  id : Option String
  endpoint : Option String
  processing_status : Option String
  created_at : Option String
  ended_at : Option String
  cancel_initiated_at : Option String
  expires_at : Option String
  processing : Int
  succeeded : Int
  errored : Int
  canceled : Int
  expired : Int
  results_url : Option String
  metadata : Option JVal
  usage : Option JVal
  errors : Option JVal

/-- The LiteLLMBatch value constructed at transformation.py lines 145-167,
with `request_counts` inlined as three integer fields. -/
structure LiteLLMBatch where
  id : String
  object : String
  endpoint : String
  input_file_id : String
  completion_window : String
  status : String
  created_at : Int
  metadata : Option JVal
  request_counts_completed : Int
  request_counts_failed : Int
  request_counts_total : Int
  usage : Option JVal
  errors : Option JVal
  output_file_id : Option String
  error_file_id : Option String
  expired_at : Option Int
  expires_at : Option Int
  failed_at : Option Int
  finalizing_at : Option Int
  in_progress_at : Option Int
  cancelled_at : Option Int
  cancelling_at : Option Int
  completed_at : Option Int

/-- Model of `iso_to_epoch` (transformation.py lines 17-27): `None` and the empty
string yield `None`; otherwise the datetime library parses the ISO string,
and any parse failure yields `None`. The library behaviour (including the Z
suffix replacement) is the abstract `parse` argument, which already returns
`none` on failure. -/
def iso_to_epoch (parse : String → Option Int) : Option String → Option Int
  | none => none
  | some s => if s = "" then none else parse s

/-- Python `x or default` on an optional epoch integer, as in
`iso_to_epoch(created_at_iso) or int(datetime.now(...).timestamp())`:
`None` and the falsy integer 0 both yield the default. -/
def pyOrInt (v : Option Int) (dflt : Int) : Int :=
  match v with
  | none => dflt
  | some x => if x = 0 then dflt else x

/-- Python `batch_obj.get("results_url") or None`: an absent key and a falsy
value (the empty string) both give `None`. -/
def pyOrNone (v : Option String) : Option String :=
  match v with
  | none => none
  | some s => if s = "" then none else some s

/-- Status derivation of `to_litellm_batch` (transformation.py lines
116-133) as a function of the raw processing_status and the four outcome
counters (`processing` does not enter). `none` models both an absent key and
a JSON null processing_status. -/
def derive_status (ps : Option String)
    (succeeded errored canceled expired : Int) : String :=
  if ps = some "canceling" then "cancelling"
  else if ps = some "in_progress" then "in_progress"
  else if ps = some "ended" then
    if canceled > 0 ∧ succeeded = 0 ∧ errored = 0 ∧ expired = 0 then "cancelled"
    else if expired > 0 ∧ succeeded = 0 ∧ errored = 0 ∧ canceled = 0 then "expired"
    else if errored > 0 ∧ succeeded = 0 then "failed"
    else if errored > 0 ∨ canceled > 0 ∨ expired > 0 then "failed"
    else "completed"
  else
    match ps with
    | none => "validating"
    | some s => if s = "" then "validating" else s

/-- Model of `to_litellm_batch(batch_obj)` (transformation.py lines 91-167).
Impure library calls are explicit arguments: `parse` is the datetime ISO
parser used by `iso_to_epoch`, `freshId` the value of `str(uuid.uuid4())`
used when the payload has no id, `now` the value of
`int(datetime.now(tz=timezone.utc).timestamp())` used when the created_at
timestamp is absent or unparsable (or epoch 0, which is falsy). -/
def to_litellm_batch (parse : String → Option Int) (freshId : String)
    (now : Int) (b : RawBatch) : LiteLLMBatch :=
  let completed := b.succeeded
  let failed := b.errored + b.canceled + b.expired
  let total := b.processing + b.succeeded + b.errored + b.canceled + b.expired
  let status := derive_status b.processing_status b.succeeded b.errored b.canceled b.expired
  let created_at_epoch := pyOrInt (iso_to_epoch parse b.created_at) now
  let ended_at_epoch := iso_to_epoch parse b.ended_at
  let cancelling_at_epoch := iso_to_epoch parse b.cancel_initiated_at
  { id := b.id.getD freshId
    object := "batch"
    endpoint := b.endpoint.getD "/v1/messages"
    input_file_id := ""
    completion_window := "24h"
    status := status
    created_at := created_at_epoch
    metadata := none
    request_counts_completed := completed
    request_counts_failed := failed
    request_counts_total := total
    usage := none
    errors := none
    output_file_id := pyOrNone b.results_url
    error_file_id := none
    expired_at := if status = "expired" then ended_at_epoch else none
    expires_at := iso_to_epoch parse b.expires_at
    failed_at := if status = "failed" then ended_at_epoch else none
    finalizing_at := none
    in_progress_at := none
    cancelled_at := if status = "cancelled" then ended_at_epoch else none
    cancelling_at := cancelling_at_epoch
    completed_at := if status = "completed" then ended_at_epoch else none }

/-- The terminal-status precedence table exactly as the specification words
it (spec section 4.2, clauses 1-5), for comparison with the status derived
by the code on the terminal raw status. -/
def spec_terminal_status (succeeded errored canceled expired : Int) : String :=
  if canceled > 0 ∧ succeeded = 0 ∧ errored = 0 ∧ expired = 0 then "cancelled"
  else if expired > 0 ∧ succeeded = 0 ∧ errored = 0 ∧ canceled = 0 then "expired"
  else if errored > 0 ∧ succeeded = 0 then "failed"
  else if errored > 0 ∨ canceled > 0 ∨ expired > 0 then "failed"
  else "completed"

/-- First-match lookup in an ordered status table. -/
def lookupFirst : List (Nat × CanonicalError) → Nat → Option CanonicalError
  | [], _ => none
  | (c, k) :: rest, status => if status = c then some k else lookupFirst rest status

/-- The status-to-kind table exactly as the specification words it
(spec section 4.4), in checking order. -/
def spec_status_table : List (Nat × CanonicalError) :=
  [(400, .invalidRequest), (401, .authenticationFailed), (403, .permissionDenied),
   (404, .notFound), (408, .timeout), (409, .invalidRequest),
   (422, .unprocessableRequest), (429, .rateLimited), (503, .serviceUnavailable)]

/-- The canonical error kind per the specification: first table match wins,
then any other status of at least 500 is a provider error, anything else a
connection failure. -/
def spec_error_kind (status : Nat) : CanonicalError :=
  (lookupFirst spec_status_table status).getD
    (if status ≥ 500 then .providerError else .connectionFailed)

/-- The object-selection rule exactly as the claim words it: first object
whose name ends with the predictions filename; else the first listed object
whose name does not end with the input filename; else the first listed
object; none when the listing is empty. -/
def claim_select (listing : List String) : Option String :=
  match listing.find? (fun n => endsWithStr n "predictions.jsonl") with
  | some n => some n
  | none =>
      match listing.find? (fun n => !endsWithStr n "input.jsonl") with
      | some n => some n
      | none => listing.head?

/-- The selection rule as the code implements it (the amendment of the
claim): clause 2 additionally requires a non-empty object name. -/
def amended_select (listing : List String) : Option String :=
  match listing.find? (fun n => endsWithStr n "predictions.jsonl") with
  | some n => some n
  | none =>
      match listing.find? (fun n => n != "" && !endsWithStr n "input.jsonl") with
      | some n => some n
      | none => listing.head?

/-- A classified line that is a usable request line: a parsed JSON object
whose body resolves to an object (the claim precondition that the line is a
valid single-object JSON body). -/
def validBodyLine : PLine → Bool
  | .blank => true
  | .invalid => false
  | .parsed v => (lineBody v).isSome

/-- The custom_id rule as the amended claim words it: the caller-supplied
value when present and truthy, else the default req-N with N the 1-based
line number. -/
def specCustomId (v : JVal) (lineNum : Nat) : JVal :=
  match v.get "custom_id" with
  | some c => if c.truthy then c else .str ("req-" ++ toString lineNum)
  | none => .str ("req-" ++ toString lineNum)

/-- The encoder output as the amended claim words it: one item per non-blank
line in input order, custom_id per `specCustomId`, carrying the 1-based line
number of the current line. -/
def specEncodeAux (transform : List (String × JVal) → JVal) :
    Nat → List PLine → List BatchRequestItem
  | _, [] => []
  | n, .blank :: rest => specEncodeAux transform (n + 1) rest
  | n, .invalid :: rest => specEncodeAux transform (n + 1) rest
  | n, .parsed v :: rest =>
      { custom_id := specCustomId v n,
        params := transform ((lineBody v).getD []) } :: specEncodeAux transform (n + 1) rest

/-- The four terminal timestamp fields of a canonical batch, in the order
completed, failed, expired, cancelled. -/
def terminalAtFields (B : LiteLLMBatch) : List (Option Int) :=
  [B.completed_at, B.failed_at, B.expired_at, B.cancelled_at]

/-- Python truthiness of an optional epoch value (`None` and 0 are falsy). -/
def pyTruthyEpoch : Option Int → Bool
  | none => false
  | some v => v != 0

/-- An ISO parser that fails on every input (models a payload whose
timestamp strings are absent or unparsable). -/
def noParse : String → Option Int := fun _ => none

/-- An ISO parser recognizing the two timestamps used by the witnesses. -/
def wParse : String → Option Int := fun s =>
  if s = "2024-05-01T00:00:00Z" then some 1714521600
  else if s = "2024-05-02T00:00:00Z" then some 1714608000
  else none

/-- A per-line parameter transformation used by witnesses (the AnthropicConfig
pipeline is abstract, so any function is admissible). -/
def wTransform : List (String × JVal) → JVal := fun _ => JVal.null

/-- Raw payload with a negative processing counter, all others zero. -/
def rawNegProcessing : RawBatch :=
  { id := some "batch_abc", endpoint := none, processing_status := some "ended",
    created_at := none, ended_at := none, cancel_initiated_at := none,
    expires_at := none, processing := -1, succeeded := 0, errored := 0,
    canceled := 0, expired := 0, results_url := none, metadata := none,
    usage := none, errors := none }

/-- Scenario B of the spec: terminal raw status with succeeded = 1 and
errored = 1 (mixed outcome). -/
def rawScenarioB : RawBatch :=
  { id := some "batch_b", endpoint := none, processing_status := some "ended",
    created_at := none, ended_at := none, cancel_initiated_at := none,
    expires_at := none, processing := 0, succeeded := 1, errored := 1,
    canceled := 0, expired := 0, results_url := none, metadata := none,
    usage := none, errors := none }

/-- Raw payload in the terminal raw status with errors but no ended
timestamp. -/
def rawEndedNoTimestamp : RawBatch :=
  { id := some "batch_x", endpoint := none, processing_status := some "ended",
    created_at := none, ended_at := none, cancel_initiated_at := none,
    expires_at := none, processing := 0, succeeded := 0, errored := 2,
    canceled := 0, expired := 0, results_url := none, metadata := none,
    usage := none, errors := none }

/-- Raw payload with no id field (forcing the uuid4 fallback). -/
def rawNoId : RawBatch :=
  { id := none, endpoint := none, processing_status := some "in_progress",
    created_at := none, ended_at := none, cancel_initiated_at := none,
    expires_at := none, processing := 1, succeeded := 0, errored := 0,
    canceled := 0, expired := 0, results_url := none, metadata := none,
    usage := none, errors := none }

/-- Raw payload with an id and a parsable, non-epoch-zero created timestamp. -/
def rawWithId : RawBatch :=
  { id := some "batch_1", endpoint := some "/v1/messages",
    processing_status := some "ended",
    created_at := some "2024-05-01T00:00:00Z",
    ended_at := some "2024-05-02T00:00:00Z", cancel_initiated_at := none,
    expires_at := none, processing := 0, succeeded := 3, errored := 0,
    canceled := 0, expired := 0, results_url := some "https://api.anthropic.com/r/1",
    metadata := none, usage := none, errors := none }

/-- Raw payload carrying free-form metadata, usage and errors payloads. -/
def rawWithPayloads : RawBatch :=
  { id := some "batch_m", endpoint := none, processing_status := some "in_progress",
    created_at := none, ended_at := none, cancel_initiated_at := none,
    expires_at := none, processing := 2, succeeded := 0, errored := 0,
    canceled := 0, expired := 0, results_url := none,
    metadata := some (JVal.str "team-tag"),
    usage := some (JVal.num 42),
    errors := some (JVal.arr []) }

/-- A parsed line whose caller-supplied custom_id is the empty string. -/
def emptyIdLine : JVal :=
  JVal.obj [("custom_id", JVal.str ""), ("model", JVal.str "claude")]

/-- Witness input lines: a plain body line, a blank line, and a line in the
wrapped body shape with an explicit custom_id. -/
def wLines : List PLine :=
  [PLine.parsed (JVal.obj [("model", JVal.str "claude"), ("messages", JVal.arr [])]),
   PLine.blank,
   PLine.parsed (JVal.obj [("custom_id", JVal.str "my-id"),
     ("body", JVal.obj [("model", JVal.str "claude")])])]

/-- C1: with the terminal raw status "ended", the derived canonical status
follows exactly the five-clause precedence of the claim (cancelled, expired,
failed on pure error, failed on mixed outcomes, else completed); all-zero
counters yield completed. The derivation is a Lean function of
(processing_status, succeeded, errored, canceled, expired), hence
deterministic in those inputs. -/
theorem derive_status_ended_matches_spec_precedence :
    (∀ s e c x : Int,
      derive_status (some "ended") s e c x = spec_terminal_status s e c x) ∧
    derive_status (some "ended") 0 0 0 0 = "completed" := by
  constructor
  · intro s e c x
    unfold derive_status spec_terminal_status
    rw [if_neg (by decide), if_neg (by decide), if_pos rfl]
  · decide

/-- C10: an absent or JSON-null processing_status (both decode to Python
None) and the empty string all derive the initial status "validating", while
any other status string outside the recognized vocabulary (canceling,
in_progress, ended) passes through unchanged. -/
theorem unrecognized_status_passthrough :
    (∀ s e c x : Int,
      derive_status none s e c x = "validating" ∧
      derive_status (some "") s e c x = "validating") ∧
    (∀ (st : String) (s e c x : Int),
      st ≠ "" → st ≠ "canceling" → st ≠ "in_progress" → st ≠ "ended" →
      derive_status (some st) s e c x = st) := by
  constructor
  · intro s e c x
    exact ⟨rfl, rfl⟩
  · intro st s e c x h0 h1 h2 h3
    unfold derive_status
    rw [if_neg (by simpa using h1), if_neg (by simpa using h2),
      if_neg (by simpa using h3)]
    exact if_neg h0

/-- Witness for C10 at concrete inputs: missing, empty, and the unrecognized
non-empty string "processing". -/
theorem unrecognized_status_passthrough_witness :
    derive_status none 0 0 0 0 = "validating" ∧
    derive_status (some "") 1 2 3 4 = "validating" ∧
    derive_status (some "processing") 0 0 0 0 = "processing" :=
  ⟨(unrecognized_status_passthrough.1 0 0 0 0).1,
   (unrecognized_status_passthrough.1 1 2 3 4).2,
   unrecognized_status_passthrough.2 "processing" 0 0 0 0
     (by decide) (by decide) (by decide) (by decide)⟩

set_option maxHeartbeats 1600000 in
/-- C7: the exception kind raised for a non-2xx response equals the kind
given by the ordered status table of the specification, and is independent
of the response body. -/
theorem error_mapper_matches_status_table :
    ∀ (status : Nat) (b1 b2 : JVal),
      raise_mapped_error status b1 = spec_error_kind status ∧
      raise_mapped_error status b1 = raise_mapped_error status b2 := by
  intro status b1 b2
  constructor
  · simp only [raise_mapped_error, spec_error_kind, spec_status_table, lookupFirst]
    split_ifs <;> rfl
  · unfold raise_mapped_error
    rfl

/-- C8: the create operation raises its validation error (the EncodingFailed
condition) before any HTTP request exactly when the input was non-empty and
the encoder produced zero request items; in particular no such error is
raised for empty input. -/
theorem create_batch_encoding_failure_iff :
    ∀ (transform : List (String × JVal) → JVal) (inputNonempty : Bool)
      (lines : List PLine),
      create_batch_step transform inputNonempty lines = CreateBatchStep.encodingFailed ↔
        (inputNonempty = true ∧ build_requests_from_jsonl transform lines = []) := by
  intro t ne lines
  unfold create_batch_step
  by_cases h : (build_requests_from_jsonl t lines).length = 0 ∧ ne = true
  · rw [if_pos h]
    simp only [true_iff]
    exact ⟨h.2, List.length_eq_zero.mp h.1⟩
  · rw [if_neg h]
    constructor
    · intro hc
      exact absurd hc (by simp)
    · intro ⟨h1, h2⟩
      exact absurd ⟨by rw [h2]; rfl, h1⟩ h

/-- C2 counterexample: on the raw payload with counter processing = -1 (the
code applies int() to the raw JSON value with no sign check), the canonical
counts are completed = 0, failed = 0, total = -1, so
completed + failed <= total fails. The claim quantifies over every raw
provider status payload, so it does not hold as stated. -/
theorem request_counts_negative_processing_breaks_inequality :
    ¬ ((to_litellm_batch noParse "uuid-0" 0 rawNegProcessing).request_counts_completed +
        (to_litellm_batch noParse "uuid-0" 0 rawNegProcessing).request_counts_failed ≤
        (to_litellm_batch noParse "uuid-0" 0 rawNegProcessing).request_counts_total) := by
  decide

/-- C2 (amended): canonical completed = succeeded, failed = errored +
canceled + expired, total = processing + succeeded + errored + canceled +
expired always hold, and whenever the raw processing counter is non-negative
(true of every genuine provider payload), completed + failed <= total. -/
theorem request_counts_reduction_correct :
    ∀ (parse : String → Option Int) (freshId : String) (now : Int) (b : RawBatch),
      (to_litellm_batch parse freshId now b).request_counts_completed = b.succeeded ∧
      (to_litellm_batch parse freshId now b).request_counts_failed =
        b.errored + b.canceled + b.expired ∧
      (to_litellm_batch parse freshId now b).request_counts_total =
        b.processing + b.succeeded + b.errored + b.canceled + b.expired ∧
      (0 ≤ b.processing →
        (to_litellm_batch parse freshId now b).request_counts_completed +
          (to_litellm_batch parse freshId now b).request_counts_failed ≤
          (to_litellm_batch parse freshId now b).request_counts_total) := by
  intro parse freshId now b
  refine ⟨rfl, rfl, rfl, ?_⟩
  intro h
  show b.succeeded + (b.errored + b.canceled + b.expired) ≤
    b.processing + b.succeeded + b.errored + b.canceled + b.expired
  omega

/-- Witness for C2 at the Scenario B payload (processing = 0, succeeded = 1,
errored = 1): completed + failed = 2 <= 2 = total. -/
theorem request_counts_reduction_correct_witness :
    0 ≤ rawScenarioB.processing ∧
    ((to_litellm_batch noParse "uuid-0" 0 rawScenarioB).request_counts_completed +
      (to_litellm_batch noParse "uuid-0" 0 rawScenarioB).request_counts_failed ≤
      (to_litellm_batch noParse "uuid-0" 0 rawScenarioB).request_counts_total) :=
  ⟨by decide,
   (request_counts_reduction_correct noParse "uuid-0" 0 rawScenarioB).2.2.2 (by decide)⟩

/-- C9 counterexample: a raw payload carrying a metadata payload is
reconciled to a batch whose metadata is None, so metadata is not carried
through unchanged (transformation.py line 153 pins it to None; usage and
errors likewise at lines 155-156). -/
theorem metadata_not_carried_through :
    rawWithPayloads.metadata = some (JVal.str "team-tag") ∧
    (to_litellm_batch noParse "uuid-0" 0 rawWithPayloads).metadata = none ∧
    (to_litellm_batch noParse "uuid-0" 0 rawWithPayloads).metadata ≠ rawWithPayloads.metadata := by
  refine ⟨rfl, rfl, ?_⟩
  intro h
  exact Option.noConfusion
    (show (none : Option JVal) = some (JVal.str "team-tag") from h)

/-- C9 (amended): the reconciled metadata, usage and errors fields are
always None, regardless of the raw payload. -/
theorem metadata_usage_errors_always_none :
    ∀ (parse : String → Option Int) (freshId : String) (now : Int) (b : RawBatch),
      (to_litellm_batch parse freshId now b).metadata = none ∧
      (to_litellm_batch parse freshId now b).usage = none ∧
      (to_litellm_batch parse freshId now b).errors = none :=
  fun _ _ _ _ => ⟨rfl, rfl, rfl⟩

/-- At most one of the four terminal ite fields can be populated, because a
single status string cannot equal two distinct terminal literals. -/
theorem countSome_terminal_le_one (s : String) (e : Option Int) :
    List.countP Option.isSome
      [ite (s = "completed") e none, ite (s = "failed") e none,
       ite (s = "expired") e none, ite (s = "cancelled") e none] ≤ 1 := by
  by_cases h1 : s = "completed"
  · rw [if_pos h1, if_neg (by rw [h1]; decide), if_neg (by rw [h1]; decide),
      if_neg (by rw [h1]; decide)]
    cases e <;> simp [List.countP_cons, List.countP_nil]
  · by_cases h2 : s = "failed"
    · rw [if_neg h1, if_pos h2, if_neg (by rw [h2]; decide), if_neg (by rw [h2]; decide)]
      cases e <;> simp [List.countP_cons, List.countP_nil]
    · by_cases h3 : s = "expired"
      · rw [if_neg h1, if_neg h2, if_pos h3, if_neg (by rw [h3]; decide)]
        cases e <;> simp [List.countP_cons, List.countP_nil]
      · by_cases h4 : s = "cancelled"
        · rw [if_neg h1, if_neg h2, if_neg h3, if_pos h4]
          cases e <;> simp [List.countP_cons, List.countP_nil]
        · rw [if_neg h1, if_neg h2, if_neg h3, if_neg h4]
          simp [List.countP_cons, List.countP_nil]

/-- C3 counterexample: a terminal payload (raw status "ended", errored = 2)
with no ended_at timestamp derives status "failed" yet leaves failed_at
unset, so "a terminal field is non-null if and only if the derived status
equals the matching terminal value" fails in the if direction. -/
theorem terminal_timestamp_missing_despite_terminal_status :
    (to_litellm_batch noParse "uuid-0" 0 rawEndedNoTimestamp).status = "failed" ∧
    (to_litellm_batch noParse "uuid-0" 0 rawEndedNoTimestamp).failed_at = none :=
  ⟨by decide, rfl⟩

/-- C3 (amended): at most one of the four terminal timestamp fields is set,
and each terminal field holds exactly the parsed ended timestamp when the
derived status equals the matching terminal value and is unset otherwise —
so a terminal field is non-null iff the status matches and the provider
supplied a parsable ended timestamp. -/
theorem terminal_timestamp_placement_correct :
    ∀ (parse : String → Option Int) (freshId : String) (now : Int) (b : RawBatch),
      ((terminalAtFields (to_litellm_batch parse freshId now b)).countP Option.isSome ≤ 1) ∧
      ((to_litellm_batch parse freshId now b).completed_at =
        if (to_litellm_batch parse freshId now b).status = "completed"
        then iso_to_epoch parse b.ended_at else none) ∧
      ((to_litellm_batch parse freshId now b).failed_at =
        if (to_litellm_batch parse freshId now b).status = "failed"
        then iso_to_epoch parse b.ended_at else none) ∧
      ((to_litellm_batch parse freshId now b).expired_at =
        if (to_litellm_batch parse freshId now b).status = "expired"
        then iso_to_epoch parse b.ended_at else none) ∧
      ((to_litellm_batch parse freshId now b).cancelled_at =
        if (to_litellm_batch parse freshId now b).status = "cancelled"
        then iso_to_epoch parse b.ended_at else none) := by
  intro parse freshId now b
  refine ⟨?_, rfl, rfl, rfl, rfl⟩
  exact countSome_terminal_le_one
    (derive_status b.processing_status b.succeeded b.errored b.canceled b.expired)
    (iso_to_epoch parse b.ended_at)

/-- C5 counterexample: reconciliation is not idempotent as claimed, because
a payload with no id draws a fresh uuid4 on every evaluation
(transformation.py line 146): two evaluations of the reconciler on the same
raw payload differ in the id field (and, when created_at is absent or
unparsable, in created_at, which falls back to the current time). -/
theorem reconcile_missing_id_not_idempotent :
    to_litellm_batch noParse "uuid-first" 100 rawNoId ≠
      to_litellm_batch noParse "uuid-second" 100 rawNoId := by
  intro h
  have h2 : ("uuid-first" : String) = "uuid-second" := congrArg LiteLLMBatch.id h
  exact absurd h2 (by decide)

/-- C5 (amended): reconciling the same raw payload twice yields identical
canonical batches in every field provided the payload carries an id and a
created_at timestamp that parses to a truthy (non-zero) epoch; only the
uuid4 fallback for a missing id and the now fallback for a missing,
unparsable or epoch-zero created_at are impure. -/
theorem reconcile_idempotent_with_id_and_created_at :
    ∀ (parse : String → Option Int) (u1 u2 : String) (n1 n2 : Int) (b : RawBatch),
      b.id.isSome = true →
      pyTruthyEpoch (iso_to_epoch parse b.created_at) = true →
      to_litellm_batch parse u1 n1 b = to_litellm_batch parse u2 n2 b := by
  intro parse u1 u2 n1 n2 b hid hca
  obtain ⟨a, ha⟩ := Option.isSome_iff_exists.mp hid
  cases he : iso_to_epoch parse b.created_at with
  | none =>
    rw [he] at hca
    simp [pyTruthyEpoch] at hca
  | some v =>
    rw [he] at hca
    have hv : v ≠ 0 := by simpa [pyTruthyEpoch] using hca
    unfold to_litellm_batch
    simp [ha, he, pyOrInt, hv]

/-- Witness for C5: a payload with id "batch_1" and a parsable created_at
reconciles identically under two different uuid4 and now draws. -/
theorem reconcile_idempotent_with_id_and_created_at_witness :
    rawWithId.id.isSome = true ∧
    pyTruthyEpoch (iso_to_epoch wParse rawWithId.created_at) = true ∧
    to_litellm_batch wParse "uuid-a" 1 rawWithId = to_litellm_batch wParse "uuid-b" 2 rawWithId :=
  ⟨by decide, by decide,
   reconcile_idempotent_with_id_and_created_at wParse "uuid-a" "uuid-b" 1 2 rawWithId
     (by decide) (by decide)⟩

/-- The custom_id rule of the amended claim coincides with the Python
`obj.get("custom_id") or default` of the code. -/
theorem specCustomId_eq_pyOr (v : JVal) (n : Nat) :
    specCustomId v n = pyOr (v.get "custom_id") (.str ("req-" ++ toString n)) := by
  unfold specCustomId pyOr
  cases v.get "custom_id" <;> rfl

/-- Over lines that are blank or have a resolvable body, the encoder loop
emits exactly the items of the claim-side description, shifted by one
between the 0-based enumerate index and the 1-based line number. -/
theorem buildRequestsAux_eq_specEncodeAux (t : List (String × JVal) → JVal) :
    ∀ (lines : List PLine) (idx : Nat),
      (∀ l ∈ lines, validBodyLine l = true) →
      buildRequestsAux t idx lines = specEncodeAux t (idx + 1) lines ∧
      (buildRequestsAux t idx lines).length = lines.countP (fun l => !l.isBlank) := by
  intro lines
  induction lines with
  | nil => intro idx _; exact ⟨rfl, rfl⟩
  | cons hd tl ih =>
    intro idx h
    have hhd := h hd (List.mem_cons_self _ _)
    have htl : ∀ l ∈ tl, validBodyLine l = true := fun l hl => h l (List.mem_cons_of_mem _ hl)
    cases hd with
    | blank =>
      simp only [buildRequestsAux, specEncodeAux]
      refine ⟨(ih (idx + 1) htl).1, ?_⟩
      rw [(ih (idx + 1) htl).2]
      simp [List.countP_cons, PLine.isBlank]
    | invalid =>
      simp [validBodyLine] at hhd
    | parsed v =>
      obtain ⟨bf, hbf⟩ := Option.isSome_iff_exists.mp hhd
      simp only [buildRequestsAux, specEncodeAux, hbf]
      constructor
      · rw [specCustomId_eq_pyOr, (ih (idx + 1) htl).1]
        rfl
      · rw [List.length_cons, (ih (idx + 1) htl).2]
        simp [List.countP_cons, PLine.isBlank]

/-- C4 counterexample: a line that carries custom_id explicitly set to the
empty string gets the default "req-1" instead of the caller-supplied value,
because the code uses `obj.get("custom_id") or default`, which treats every
falsy value as absent. -/
theorem encoder_empty_custom_id_uses_default :
    emptyIdLine.get "custom_id" = some (JVal.str "") ∧
    (build_requests_from_jsonl wTransform [PLine.parsed emptyIdLine]).map
        BatchRequestItem.custom_id = [JVal.str "req-1"] ∧
    JVal.str "req-1" ≠ JVal.str "" := by
  refine ⟨rfl, rfl, ?_⟩
  intro h
  have h2 : ("req-1" : String) = "" := by injection h
  exact absurd h2 (by decide)

/-- C4 (amended): over non-empty input whose lines are blank or valid
single-object JSON bodies, the encoder produces exactly one item per
non-blank line, in input order, with custom_id equal to the caller-supplied
value when that value is present and truthy, else the default req-N with N
the 1-based line number of the line. -/
theorem encoder_one_item_per_nonblank_line :
    ∀ (transform : List (String × JVal) → JVal) (lines : List PLine),
      lines ≠ [] →
      (∀ l ∈ lines, validBodyLine l = true) →
      build_requests_from_jsonl transform lines = specEncodeAux transform 1 lines ∧
      (build_requests_from_jsonl transform lines).length =
        lines.countP (fun l => !l.isBlank) := by
  intro t lines _ h
  exact buildRequestsAux_eq_specEncodeAux t lines 0 h

/-- Witness for C4 on three concrete lines (a plain body line, a blank line,
a wrapped body line with an explicit custom_id). -/
theorem encoder_one_item_per_nonblank_line_witness :
    wLines ≠ [] ∧ (∀ l ∈ wLines, validBodyLine l = true) ∧
    (build_requests_from_jsonl wTransform wLines = specEncodeAux wTransform 1 wLines ∧
     (build_requests_from_jsonl wTransform wLines).length =
       wLines.countP (fun l => !l.isBlank)) :=
  ⟨List.cons_ne_nil _ _, by decide,
   encoder_one_item_per_nonblank_line wTransform wLines (List.cons_ne_nil _ _) (by decide)⟩

/-- C6 counterexample: on a listing whose first item has an empty name (a
listed object with no name field decodes to ""), the claim-side rule picks
the empty name at clause 2 (it does not end with the input filename), but
the code skips empty names and fetches the later object. -/
theorem locator_empty_name_skipped :
    claim_select ["", "shard-00000.txt"] = some "" ∧
    get_results_content "gs-output-folder" ["", "shard-00000.txt"] =
      LocatorResult.fetch "shard-00000.txt" := by
  exact ⟨rfl, rfl⟩

/-- C6 (amended): for a prefix-style pointer (path not ending in .jsonl),
the locator fetches exactly the object chosen by the precedence (1) first
name ending with the predictions filename, (2) else first non-empty name
not ending with the input filename, (3) else the first listed name, and
fails with the ResultsNotFound condition exactly on an empty listing. -/
theorem locator_selection_precedence :
    ∀ (objectPath : String) (listing : List String),
      endsWithStr objectPath ".jsonl" = false →
      (get_results_content objectPath listing =
        match amended_select listing with
        | some n => LocatorResult.fetch n
        | none => LocatorResult.resultsNotFound) ∧
      (amended_select listing = none ↔ listing = []) := by
  intro p listing hp
  constructor
  · unfold get_results_content amended_select
    rw [if_neg (by simp [hp])]
    cases listing with
    | nil => rfl
    | cons hd tl =>
      simp only [List.isEmpty_cons, Bool.false_eq_true, if_false]
      cases h1 : List.find? (fun n => endsWithStr n "predictions.jsonl") (hd :: tl) with
      | some n => simp [h1]
      | none =>
        simp only [h1]
        cases h2 : List.find? (fun n => n != "" && !endsWithStr n "input.jsonl") (hd :: tl) with
        | some n => simp [h2]
        | none => simp [h2, List.headD, List.head?]
  · cases listing with
    | nil =>
      constructor
      · intro _; rfl
      · intro _
        unfold amended_select
        rfl
    | cons hd tl =>
      constructor
      · intro h
        unfold amended_select at h
        cases h1 : List.find? (fun n => endsWithStr n "predictions.jsonl") (hd :: tl) with
        | some n => simp [h1] at h
        | none =>
          simp only [h1] at h
          cases h2 : List.find? (fun n => n != "" && !endsWithStr n "input.jsonl") (hd :: tl) with
          | some n => simp [h2] at h
          | none => simp [h2, List.head?] at h
      · intro h
        exact absurd h (List.cons_ne_nil hd tl)

/-- Witness for C6 at Scenario D: the prefix listing selects exactly
predictions.jsonl. -/
theorem locator_selection_precedence_witness :
    endsWithStr "gs-output-folder" ".jsonl" = false ∧
    (get_results_content "gs-output-folder"
        ["input.jsonl", "predictions.jsonl", "other.jsonl"] =
      match amended_select ["input.jsonl", "predictions.jsonl", "other.jsonl"] with
      | some n => LocatorResult.fetch n
      | none => LocatorResult.resultsNotFound) ∧
    get_results_content "gs-output-folder"
        ["input.jsonl", "predictions.jsonl", "other.jsonl"] =
      LocatorResult.fetch "predictions.jsonl" :=
  ⟨by decide,
   (locator_selection_precedence "gs-output-folder"
     ["input.jsonl", "predictions.jsonl", "other.jsonl"] (by decide)).1,
   by decide⟩
